import Mathlib

/-!
Verification of the vector-db-migration control plane.

This file embeds, in Lean, the parts of the Go repository that the claims
C1..C10 talk about, and proves (or refutes) each claim against that embedding:

* `internal/state/tracker.go` — the SQLite-backed state store, modelled as a
  pure store (assoc lists standing for the two tables, sequential semantics).
* `internal/mcp/auth.go`, `internal/mcp/ratelimit.go`, the audit middleware and
  the JSON-RPC server (`unnamed/part_000`, `unnamed/part_001`, `unnamed/part_002`,
  `internal/mcp/registry.go`) — modelled as state-passing handlers.
* `internal/mapper/base.go` and `internal/mapper/schema.go` — the record
  transformer.
* `internal/orchestrator/base.go` — the batch pipeline, modelled as a
  sequential loop over a script of source/target responses, with the
  pause/cancel flags read from an iteration-indexed schedule.
* `unnamed/part_005` — the `migration_status` tool.

Modelling conventions: Go `int64` becomes `Int`; Go `float64`/`float32`
becomes `Rat` (exact arithmetic standing for the floating computation);
Go maps become association lists with `alookup`/`ainsert`; wall-clock
timestamps become `Int` with `0` as the zero value; database and network
failures that a claim needs are injected through explicit response scripts.
-/

namespace VecMig

/-! ## Association-list primitives (Go `map` semantics) -/

/-- Lookup in an association list, first binding wins (Go map lookup). -/
def alookup {V : Type} (k : String) : List (String × V) → Option V
  | [] => none
  | (k', v) :: rest => if k = k' then some v else alookup k rest

/-- Insert-or-replace in an association list (Go map assignment / SQL upsert). -/
def ainsert {V : Type} (k : String) (v : V) : List (String × V) → List (String × V)
  | [] => [(k, v)]
  | (k', v') :: rest => if k = k' then (k, v) :: rest else (k', v') :: ainsert k v rest

/-! ## JSON-ish values (Go `interface{}` as it appears in params and results) -/

/-- Dynamic value, standing for Go `interface{}` holding decoded JSON.
Go `float64` values are carried as exact rationals. -/
inductive Value where
  | null
  | bool (b : Bool)
  | int (n : Int)
  | rat (q : Rat)
  | str (s : String)
  | arr (xs : List Value)
  | obj (fields : List (String × Value))

/-! ## State store — `internal/state/tracker.go` -/

/-- Lifecycle state of a migration (`MigrationState` constants). -/
inductive MigState where
  | notStarted
  | inProgress
  | completed
  | rolledBack
  | failed
deriving DecidableEq

/-- Validation statistics stored inside a checkpoint (`ValidationStats`). -/
structure ValidationStats where
  sampledCount : Int := 0
  avgCosineSimilarity : Rat := 0
  minCosineSimilarity : Rat := 0
  maxCosineSimilarity : Rat := 0

/-- Migration checkpoint (`Checkpoint`). Timestamps are abstracted to `Int`
with `0` as Go's zero time. -/
structure Checkpoint where
  migrationID : String
  lastProcessedID : String := ""
  totalRecords : Int := 0
  processedCount : Int := 0
  failedCount : Int := 0
  startedAt : Int := 0
  lastCheckpointAt : Int := 0
  schemaMapping : List (String × Value) := []
  validationStats : ValidationStats := {}

/-- The durable store: the `migrations` table (id to state) and the
`checkpoints` table (id to decoded blob). Foreign keys are not enforced by
the code (SQLite default; the tests save checkpoints for ids never written
to `migrations` and succeed). -/
structure Store where
  migrations : List (String × MigState) := []
  checkpoints : List (String × Checkpoint) := []

def emptyStore : Store := {}

/-- `SQLiteTracker.GetState`: unknown id reads as `not_started`. -/
def getState (t : Store) (id : String) : MigState :=
  (alookup id t.migrations).getD MigState.notStarted

/-- `SQLiteTracker.SetState`: unconditional conflict-resolving upsert of the
state column; no transition is rejected. -/
def setState (t : Store) (id : String) (s : MigState) : Store :=
  { t with migrations := ainsert id s t.migrations }

/-- `SQLiteTracker.GetCheckpoint`: absent id reads as `none` (not an error). -/
def getCheckpoint (t : Store) (id : String) : Option Checkpoint :=
  alookup id t.checkpoints

/-- `SQLiteTracker.SaveCheckpoint`: upsert the blob keyed by `migration_id`,
then read the lifecycle state and promote `not_started` to `in_progress`. -/
def saveCheckpoint (t : Store) (cp : Checkpoint) : Store :=
  let t1 : Store := { t with checkpoints := ainsert cp.migrationID cp t.checkpoints }
  if getState t1 cp.migrationID = MigState.notStarted then
    setState t1 cp.migrationID MigState.inProgress
  else
    t1

/-- `SQLiteTracker.DeleteCheckpoint`: idempotent delete of the blob row only. -/
def deleteCheckpoint (t : Store) (id : String) : Store :=
  { t with checkpoints := t.checkpoints.filter (fun p => p.1 ≠ id) }

/-- One accepted state-store mutation, as exposed by the `StateTracker`
interface. -/
inductive StoreOp where
  | set (id : String) (s : MigState)
  | save (cp : Checkpoint)
  | del (id : String)

def applyOp (t : Store) : StoreOp → Store
  | .set id s => setState t id s
  | .save cp => saveCheckpoint t cp
  | .del id => deleteCheckpoint t id

def applyOps (t : Store) (ops : List StoreOp) : Store :=
  ops.foldl applyOp t

/-! ## Tool registry — `internal/mcp/registry.go` -/

/-- A registered tool: name, description, input schema and handler
(`Tool` / `ToolHandler`). -/
structure Tool where
  name : String
  description : String := ""
  schema : Value := Value.null
  handler : List (String × Value) → Except String Value

/-- The registry's name-indexed table. -/
def Registry := List (String × Tool)

/-- `ToolRegistry.Get`: lookup by name, or the typed error
`tool <name> not found`. -/
def registryGet (reg : Registry) (name : String) : Except String Tool :=
  match alookup name reg with
  | some tool => Except.ok tool
  | none => Except.error ("tool " ++ name ++ " not found")

/-- `ToolRegistry.Execute`: `Get` then run the handler. -/
def registryExecute (reg : Registry) (name : String)
    (params : List (String × Value)) : Except String Value :=
  match registryGet reg name with
  | Except.error e => Except.error e
  | Except.ok tool => tool.handler params

/-! ## JSON-RPC wire types — `unnamed/part_002` and `unnamed/part_000` -/

/-- Standard JSON-RPC 2.0 error codes (constants in `unnamed/part_002`). -/
def parseErrCode : Int := -32700
def invalidRequestCode : Int := -32600
def methodNotFoundCode : Int := -32601
def internalErrorCode : Int := -32603

/-- Decoded JSON-RPC request body (`Request`). `params` is a raw message;
`none` stands for an absent or undecodable params object, which
`parseParams` turns into an empty map. -/
structure RpcRequest where
  jsonrpc : String
  id : Value := Value.null
  method : String
  params : Option (List (String × Value)) := none

/-- `Server.parseParams`: nil or undecodable raw params become the empty map. -/
def parseParams (p : Option (List (String × Value))) : List (String × Value) :=
  p.getD []

/-- The body of an HTTP response emitted by the server or a middleware:
either a JSON-RPC success envelope or a JSON-RPC error envelope. -/
inductive RespBody where
  | success (id : Value) (result : Value)
  | rpcError (id : Value) (code : Int) (message : String)

/-- HTTP response: status code plus the JSON body. -/
structure HttpResponse where
  status : Nat
  body : RespBody

/-- Incoming HTTP request. `authorization` is the `Authorization` header
(`none` when absent), `ctxApiKey` is the request-context value set by the
authentication middleware (Go's zero value is the empty string), and `body`
is the decoded JSON-RPC request (`none` when the body is not valid JSON). -/
structure HttpRequest where
  method : String
  path : String
  authorization : Option String := none
  remoteAddr : String := ""
  ctxApiKey : String := ""
  body : Option RpcRequest := none

/-- `Server.handleRequest` (`unnamed/part_000`): POST-only JSON-RPC endpoint.
`writeError` always sets HTTP status 400; a success reply keeps the implicit
200. Every error from `registryExecute` — including the registry's
`tool <name> not found` — is wrapped as `internalError`. -/
def handleRequest (reg : Registry) (r : HttpRequest) : HttpResponse :=
  if r.method ≠ "POST" then
    { status := 400, body := RespBody.rpcError Value.null invalidRequestCode "method not allowed" }
  else
    match r.body with
    | none =>
      { status := 400, body := RespBody.rpcError Value.null parseErrCode "invalid JSON" }
    | some req =>
      if req.jsonrpc ≠ "2.0" then
        { status := 400,
          body := RespBody.rpcError req.id invalidRequestCode "invalid JSON-RPC version" }
      else
        match registryExecute reg req.method (parseParams req.params) with
        | Except.error e =>
          { status := 400, body := RespBody.rpcError req.id internalErrorCode e }
        | Except.ok result =>
          { status := 200, body := RespBody.success req.id result }

/-! ## Middleware — `internal/mcp/auth.go`, `internal/mcp/ratelimit.go`,
`unnamed/part_001`, chained in `Server.Start` (`unnamed/part_000`). -/

/-- One audit log line: the request-entry line carries method, path, client
address and the masked credential; the response line carries the captured
final status code. -/
inductive AuditEvent where
  | request (method path clientIP maskedKey : String)
  | response (method path : String) (status : Nat)

/-- Mutable server-side state threaded through the handler chain: the
rate-limiter bucket table (tokens left per principal) and the audit log. -/
structure ServerState where
  buckets : List (String × Nat) := []
  auditLog : List AuditEvent := []

/-- A state-passing HTTP handler. -/
def Handler := HttpRequest → ServerState → ServerState × HttpResponse

/-- `maskString` (`unnamed/part_001`): keep only the last `keepLast`
characters behind a `****` shield; short strings (and the empty string)
become `****` outright. Go indexes bytes; the model indexes characters. -/
def maskString (s : String) (keepLast : Nat) : String :=
  if s.length ≤ keepLast then "****"
  else "****" ++ (s.data.drop (s.length - keepLast)).asString

/-- `AuditMiddleware.Middleware`: log a request line (with the context
credential masked), run the wrapped handler against a status-capturing
writer, then log a response line with the final status. -/
def auditMiddleware (next : Handler) : Handler := fun r st =>
  let st1 : ServerState :=
    { st with auditLog := st.auditLog ++
        [AuditEvent.request r.method r.path r.remoteAddr (maskString r.ctxApiKey 4)] }
  let out := next r st1
  ({ out.1 with auditLog := out.1.auditLog ++
      [AuditEvent.response r.method r.path out.2.status] }, out.2)

/-- `extractAPIKey` (`internal/mcp/auth.go`): accept `Bearer <key>` or a raw
key; an absent or empty header yields the empty string. -/
def extractAPIKey (r : HttpRequest) : String :=
  match r.authorization with
  | none => ""
  | some auth =>
    if auth = "" then ""
    else if 7 < auth.length ∧ auth.take 7 = "Bearer " then auth.drop 7
    else auth

/-- `AuthMiddleware.Middleware`: bypass for the fixed `/healthz` path;
missing credential is code -32000 with HTTP 401, a failed constant-time
comparison is code -32001 with HTTP 403; on success the credential is
attached to the request context. -/
def authMiddleware (apiKey : String) (next : Handler) : Handler := fun r st =>
  if r.path = "/healthz" then next r st
  else
    let k := extractAPIKey r
    if k = "" then
      (st, { status := 401,
             body := RespBody.rpcError Value.null (-32000) "missing authorization" })
    else if k ≠ apiKey then
      (st, { status := 403,
             body := RespBody.rpcError Value.null (-32001) "invalid api key" })
    else
      next { r with ctxApiKey := k } st

/-- `RateLimiterMiddleware.getLimiter`: fetch the principal's bucket or
create a fresh one holding `burst` tokens. -/
def getLimiter (buckets : List (String × Nat)) (key : String) (burst : Nat) :
    List (String × Nat) × Nat :=
  match alookup key buckets with
  | some n => (buckets, n)
  | none => (ainsert key burst buckets, burst)

/-- `RateLimiterMiddleware.Middleware`: a principal missing from the request
context falls into the shared `anonymous` bucket — there is no `/healthz`
bypass here. `Allow` consumes one token when available, else rejects with
code -32002 and HTTP 429. Refill between instants is not modelled (a single
request sees zero elapsed time). -/
def rateLimitMiddleware (burst : Nat) (next : Handler) : Handler := fun r st =>
  let key := if r.ctxApiKey = "" then "anonymous" else r.ctxApiKey
  let bt := getLimiter st.buckets key burst
  if bt.2 = 0 then
    ({ st with buckets := bt.1 },
     { status := 429, body := RespBody.rpcError Value.null (-32002) "rate limit exceeded" })
  else
    next r { st with buckets := ainsert key (bt.2 - 1) bt.1 }

/-- The mux with the single `/` route dispatching to `handleRequest`. -/
def muxHandler (reg : Registry) : Handler := fun r st => (st, handleRequest reg r)

/-- The chain built by `Server.Start` with all three middlewares configured.
The source wraps the mux with audit first, then rate limiting, then
authentication, so on entry a request passes authentication, then the rate
limiter, then audit, then the mux — authentication is the outermost layer. -/
def serverChain (apiKey : String) (burst : Nat) (reg : Registry) : Handler :=
  authMiddleware apiKey (rateLimitMiddleware burst (auditMiddleware (muxHandler reg)))

/-! ## Record transformer — `internal/mapper/schema.go`, `internal/mapper/base.go` -/

/-- A vector record (`adapters.Record`): stable id, dense vector (float32
entries carried as rationals), and free-form metadata. -/
structure Record where
  id : String
  vector : List Rat := []
  metadata : List (String × Value) := []

/-- A declared per-field type conversion (`TypeConversion`); the converter is
a Go function value, `none` standing for a nil converter. -/
structure TypeConversion where
  fromType : String := ""
  toType : String := ""
  converter : Option (Value → Except String Value) := none

/-- The declarative schema mapping (`SchemaMapping`). -/
structure SchemaMapping where
  fieldMappings : List (String × String) := []
  typeConversions : List (String × TypeConversion) := []
  defaultValues : List (String × Value) := []
  sourceDB : String := ""
  targetDB : String := ""

/-- One step of the `field_mappings` loop in `BaseMapper.MapRecord`: for the
entry `p = (sourceField, targetField)`, copy the source value under the
target name when present, else the declared default when one exists, else
leave the accumulator unchanged. -/
def fmStep (md defaults : List (String × Value)) (acc : List (String × Value))
    (p : String × String) : List (String × Value) :=
  match alookup p.1 md with
  | some v => ainsert p.2 v acc
  | none =>
    match alookup p.1 defaults with
    | some d => ainsert p.2 d acc
    | none => acc

/-- Phase one of `BaseMapper.MapRecord`: walk `field_mappings` over a fresh
empty metadata map. -/
def applyFieldMappings (md : List (String × Value)) (defaults : List (String × Value))
    (fms : List (String × String)) : List (String × Value) :=
  fms.foldl (fmStep md defaults) []

/-- Phase two of `BaseMapper.MapRecord`: walk `type_conversions`, running the
converter on any already-mapped value; a converter failure aborts with the
typed transformation error (Go also hands back the partially converted
record, which every caller discards). -/
def applyConversions (tcs : List (String × TypeConversion))
    (md : List (String × Value)) : Except String (List (String × Value)) :=
  tcs.foldlM
    (fun acc p =>
      match alookup p.1 acc, p.2.converter with
      | some v, some f =>
        match f v with
        | Except.ok v' => Except.ok (ainsert p.1 v' acc)
        | Except.error e =>
          Except.error ("failed to convert field " ++ p.1 ++ ": " ++ e)
      | _, _ => Except.ok acc)
    md

/-- `BaseMapper.MapRecord`: id and vector pass through; metadata is rebuilt
from scratch by the field mappings and then type conversions. -/
def mapRecord (record : Record) (mapping : SchemaMapping) : Except String Record :=
  match applyConversions mapping.typeConversions
      (applyFieldMappings record.metadata mapping.defaultValues mapping.fieldMappings) with
  | Except.error e => Except.error e
  | Except.ok md =>
    Except.ok { id := record.id, vector := record.vector, metadata := md }

/-- `BaseMapper.MapBatch`: map records in order; the first failure aborts the
batch with the record's index surfaced. -/
def mapBatch (records : List Record) (mapping : SchemaMapping) :
    Except String (List Record) :=
  (records.enum.mapM (fun p =>
    match mapRecord p.2 mapping with
    | Except.ok r => Except.ok r
    | Except.error e =>
      Except.error ("failed to map record " ++ toString p.1 ++ ": " ++ e)))

/-! ## migration_status tool — `unnamed/part_005` -/

/-- `calculatePercentage`: exact model of the float64 computation
`float64(part) / float64(total) * 100.0` guarded only by `total == 0`. -/
def calculatePercentage (part total : Int) : Rat :=
  if total = 0 then 0 else (part : Rat) / (total : Rat) * 100

/-- RFC3339 rendering of an abstract timestamp (the claims never look inside
this string, so the rendering is left abstract as `toString`). -/
def timeFormat (t : Int) : String := toString t

/-- `MigrationStatusTool.execute`: validate `migration_id`, read checkpoint
and state from the tracker, and assemble the status object. A missing
checkpoint produces the all-zero progress block; otherwise progress and the
derived `batches_processed` (`ProcessedCount / 100`, Go truncated division)
come from the checkpoint. -/
def migrationStatusExecute (t : Store) (params : List (String × Value)) :
    Except String Value :=
  match alookup "migration_id" params with
  | some (Value.str migrationID) =>
    if migrationID = "" then
      Except.error "migration_id is required and must be a non-empty string"
    else
      let checkpoint := getCheckpoint t migrationID
      let st := getState t migrationID
      let statusStr : String :=
        match st with
        | MigState.notStarted => "not_started"
        | MigState.inProgress => "in_progress"
        | MigState.completed => "completed"
        | MigState.rolledBack => "rolled_back"
        | MigState.failed => "failed"
      match checkpoint with
      | some cp =>
        Except.ok (Value.obj
          [("migration_id", Value.str migrationID),
           ("status", Value.str statusStr),
           ("batches_processed", Value.int (Int.tdiv cp.processedCount 100)),
           ("started_at",
             if cp.startedAt ≠ 0 then Value.str (timeFormat cp.startedAt) else Value.null),
           ("ended_at",
             if cp.lastCheckpointAt ≠ 0 then Value.str (timeFormat cp.lastCheckpointAt)
             else Value.null),
           ("progress", Value.obj
             [("total_records", Value.int cp.totalRecords),
              ("migrated_records", Value.int cp.processedCount),
              ("percentage",
                Value.rat (calculatePercentage cp.processedCount cp.totalRecords))])])
      | none =>
        Except.ok (Value.obj
          [("migration_id", Value.str migrationID),
           ("status", Value.str statusStr),
           ("batches_processed", Value.int 0),
           ("started_at", Value.null),
           ("ended_at", Value.null),
           ("progress", Value.obj
             [("total_records", Value.int 0),
              ("migrated_records", Value.int 0),
              ("percentage", Value.rat 0)])])
  | _ => Except.error "migration_id is required and must be a non-empty string"

/-! ## Orchestrator — `internal/orchestrator/base.go`

The worker `runMigration` is modelled as a sequential loop. External I/O is
injected as scripts: `batchScript` lists the successive results of
`SourceDB.GetBatch` (an exhausted script reads as an empty batch, the
end-of-stream signal), `upsertScript` the successive results of
`TargetDB.UpsertBatch` (exhausted reads as success). The `isPaused` flag and
`ctx.Err()` are read at the top of each iteration; their values over time
are given by iteration-indexed schedules, so a `pause` issued during batch
`n` and a `resume` issued before batch `n+1` is the schedule that is true at
`n` and false from `n+1` on. -/

/-- `MigrationStats` (`unnamed/part_006`); timestamps abstracted to `Int`. -/
structure MigrationStats where
  totalRecords : Int := 0
  migratedRecords : Int := 0
  failedRecords : Int := 0
  batchesProcessed : Int := 0
  startTime : Int := 0
  endTime : Int := 0
  status : String := "not_started"

/-- `MigrationConfig` knobs reaching the pipeline. `maxRetries` is carried
exactly as in the source, where no code ever reads it. -/
structure OrchConfig where
  batchSize : Nat := 0
  maxRetries : Nat := 0
  validateEvery : Nat := 0

/-- Scripted environment for one pipeline run. -/
structure PipelineEnv where
  statsResult : Except String Int
  batchScript : List (Except String (List Record))
  upsertScript : List (Except String Unit) := []
  mapF : List Record → Except String (List Record) := fun rs => Except.ok rs
  pausedAt : Nat → Bool := fun _ => false
  cancelledAt : Nat → Bool := fun _ => false

/-- What is observable when the worker function returns. `isRunningAfter` is
the `isRunning` flag after the deferred cleanup that runs on every exit path
of `runMigration` — it is always `false` once the worker has returned. -/
structure RunOutcome where
  stats : MigrationStats
  store : Store
  getBatchCalls : Nat
  isRunningAfter : Bool

/-- `BaseOrchestrator.fail`: record the reason in the status, persist the
terminal `failed` lifecycle state, and exit. -/
def failRun (mid reason : String) (stats : MigrationStats) (store : Store)
    (calls : Nat) : RunOutcome :=
  { stats := { stats with status := "failed: " ++ reason },
    store := setState store mid MigState.failed,
    getBatchCalls := calls, isRunningAfter := false }

/-- `BaseOrchestrator.complete`: mark completed, save a final checkpoint and
persist the terminal `completed` lifecycle state. -/
def completeRun (mid : String) (stats : MigrationStats) (store : Store)
    (calls : Nat) : RunOutcome :=
  let stats1 := { stats with status := "completed" }
  let store1 := saveCheckpoint store
    { migrationID := mid, totalRecords := stats1.totalRecords,
      processedCount := stats1.migratedRecords, failedCount := stats1.failedRecords,
      startedAt := stats1.startTime }
  { stats := stats1, store := setState store1 mid MigState.completed,
    getBatchCalls := calls, isRunningAfter := false }

/-- The batch loop of `BaseOrchestrator.runMigration`. At the top of each
iteration, an observed pause or cancellation makes the worker return at
once. Every `GetBatch`, map or upsert error marks the run failed
immediately — the loop contains no retry. A checkpoint is saved whenever
`batchNum % validateEvery = 0` (default interval 10). -/
def runLoop (mid : String) (validateEvery : Nat)
    (mapF : List Record → Except String (List Record))
    (pausedAt cancelledAt : Nat → Bool) :
    List (Except String (List Record)) → List (Except String Unit) →
    Nat → Nat → String → MigrationStats → Store → RunOutcome
  | batches, upserts, n, calls, afterID, stats, store =>
    if pausedAt n ∨ cancelledAt n then
      { stats := stats, store := store, getBatchCalls := calls, isRunningAfter := false }
    else
      match batches with
      | [] => completeRun mid stats store (calls + 1)
      | b :: rest =>
        match b with
        | Except.error e =>
          failRun mid ("failed to get batch " ++ toString n ++ ": " ++ e)
            stats store (calls + 1)
        | Except.ok [] => completeRun mid stats store (calls + 1)
        | Except.ok records =>
          match mapF records with
          | Except.error e =>
            failRun mid ("failed to map batch " ++ toString n ++ ": " ++ e)
              stats store (calls + 1)
          | Except.ok _ =>
            match (upserts.head?).getD (Except.ok ()) with
            | Except.error e =>
              failRun mid ("failed to upsert batch " ++ toString n ++ ": " ++ e)
                stats store (calls + 1)
            | Except.ok _ =>
              let stats1 := { stats with
                batchesProcessed := stats.batchesProcessed + 1,
                migratedRecords := stats.migratedRecords + records.length }
              let afterID1 := ((records.getLast?).map Record.id).getD afterID
              let ve := if validateEvery = 0 then 10 else validateEvery
              let store1 :=
                if n % ve = 0 then
                  saveCheckpoint store
                    { migrationID := mid, lastProcessedID := afterID1,
                      totalRecords := stats1.totalRecords,
                      processedCount := stats1.migratedRecords,
                      failedCount := stats1.failedRecords,
                      startedAt := stats1.startTime }
                else store
              runLoop mid validateEvery mapF pausedAt cancelledAt
                rest upserts.tail (n + 1) (calls + 1) afterID1 stats1 store1

/-- `BaseOrchestrator.runMigration`: query source stats for the total, then
run the batch loop from the empty cursor. `cfg.maxRetries` is accepted and,
as in the source, never consulted. -/
def runMigration (mid : String) (cfg : OrchConfig) (env : PipelineEnv)
    (store : Store) : RunOutcome :=
  let stats0 : MigrationStats := { status := "in_progress" }
  match env.statsResult with
  | Except.error e => failRun mid ("failed to get source stats: " ++ e) stats0 store 0
  | Except.ok total =>
    runLoop mid cfg.validateEvery env.mapF env.pausedAt env.cancelledAt
      env.batchScript env.upsertScript 0 0 ""
      { stats0 with totalRecords := total } store

/-- The orchestrator's in-memory control flags (`isRunning`, `isPaused`,
`stats.Status`) as touched by `Pause` and `Resume`. -/
structure OrchCtl where
  migrationID : String
  isRunning : Bool := false
  isPaused : Bool := false
  status : String := "not_started"

/-- `BaseOrchestrator.Pause`: id check, then flip `isPaused` and set the
status string; no cancellation is triggered. -/
def pauseOp (o : OrchCtl) (id : String) : Except String OrchCtl :=
  if id ≠ o.migrationID then Except.error "migration ID mismatch"
  else if ¬o.isRunning then Except.error "migration not running"
  else Except.ok { o with isPaused := true, status := "paused" }

/-- `BaseOrchestrator.Resume`: id check, then clear `isPaused` and set the
status string. Nothing else happens: no worker is created or signalled. -/
def resumeOp (o : OrchCtl) (id : String) : Except String OrchCtl :=
  if id ≠ o.migrationID then Except.error "migration ID mismatch"
  else if ¬o.isPaused then Except.error "migration not paused"
  else Except.ok { o with isPaused := false, status := "in_progress" }

/-! ## Observation helpers and concrete scenarios used by the claims -/

/-- Observer: the `progress.percentage` field of a `migration_status` reply. -/
def reportedPercentage (t : Store) (id : String) : Option Rat :=
  match migrationStatusExecute t [("migration_id", Value.str id)] with
  | Except.ok (Value.obj fields) =>
    match alookup "progress" fields with
    | some (Value.obj p) =>
      match alookup "percentage" p with
      | some (Value.rat q) => some q
      | _ => none
    | _ => none
  | _ => none

/-- A control request carrying a syntactically valid bearer credential that
does not match the configured one. -/
def wrongKeyRequest : HttpRequest :=
  { method := "POST", path := "/", authorization := some "Bearer wrong-key",
    remoteAddr := "1.2.3.4",
    body := some { jsonrpc := "2.0", id := Value.int 1, method := "migration_status" } }

/-- A credential-less health-check probe. -/
def healthzRequest : HttpRequest :=
  { method := "GET", path := "/healthz", remoteAddr := "9.9.9.9" }

/-- A well-formed JSON-RPC request for a method no registry entry carries. -/
def unknownMethodRequest : HttpRequest :=
  { method := "POST", path := "/",
    body := some { jsonrpc := "2.0", id := Value.int 1, method := "nope" } }

/-- Pipeline environment for the retry claim: the source reports five
records, the first `GetBatch` fails with a transient transport error, and a
retry of the same read would succeed. -/
def transientFailureEnv : PipelineEnv :=
  { statsResult := Except.ok 5,
    batchScript := [Except.error "timeout", Except.ok [{ id := "r1" }]] }

/-- Pipeline environment for the pause claim: two batches are available, the
pause flag is observed set at the top of iteration 0 and clear from
iteration 1 on (a pause immediately followed by a resume). -/
def pauseResumeEnv : PipelineEnv :=
  { statsResult := Except.ok 2,
    batchScript := [Except.ok [{ id := "r1" }], Except.ok [{ id := "r2" }]],
    pausedAt := fun n => n == 0 }

/-- A checkpoint whose caller-supplied counters violate the data model
(negative `total_records`); `SaveCheckpoint` accepts it unchecked. -/
def negativeTotalCheckpoint : Checkpoint :=
  { migrationID := "m1", totalRecords := -1, processedCount := 1 }

/-! ## Shared lemmas -/

theorem alookup_ainsert_self {V : Type} (k : String) (v : V) (l : List (String × V)) :
    alookup k (ainsert k v l) = some v := by
  induction l with
  | nil => simp [ainsert, alookup]
  | cons hd tl ih =>
    obtain ⟨k', v'⟩ := hd
    by_cases h : k = k'
    · simp [ainsert, alookup, h]
    · simp [ainsert, alookup, h, ih]

theorem alookup_ainsert_ne {V : Type} {k k' : String} (h : k ≠ k') (v : V)
    (l : List (String × V)) : alookup k (ainsert k' v l) = alookup k l := by
  induction l with
  | nil => simp [ainsert, alookup, h]
  | cons hd tl ih =>
    obtain ⟨k₀, v₀⟩ := hd
    by_cases h₀ : k' = k₀
    · subst h₀
      simp [ainsert, alookup, h]
    · by_cases h₁ : k = k₀
      · simp [ainsert, alookup, h₀, h₁]
      · simp [ainsert, alookup, h₀, h₁, ih]

theorem alookup_fmFold_not_target (md defaults : List (String × Value))
    (fms : List (String × String)) (acc : List (String × Value)) (k : String)
    (hk : k ∉ fms.map Prod.snd) :
    alookup k (fms.foldl (fmStep md defaults) acc) = alookup k acc := by
  induction fms generalizing acc with
  | nil => rfl
  | cons p rest ih =>
    obtain ⟨sf, tf⟩ := p
    have hk1 : k ≠ tf := by
      intro h
      exact hk (by simp [h])
    have hk2 : k ∉ rest.map Prod.snd := by
      intro h
      exact hk (by simp [h])
    rw [List.foldl_cons, ih _ hk2]
    cases h1 : alookup sf md with
    | some v => simp [fmStep, h1, alookup_ainsert_ne hk1]
    | none =>
      cases h2 : alookup sf defaults with
      | some d => simp [fmStep, h1, h2, alookup_ainsert_ne hk1]
      | none => simp [fmStep, h1, h2]

theorem alookup_fmFold_target (md defaults : List (String × Value))
    (fms : List (String × String)) (sf tf : String) :
    (fms.map Prod.snd).Nodup → (sf, tf) ∈ fms →
    ∀ acc : List (String × Value), alookup tf acc = none →
    alookup tf (fms.foldl (fmStep md defaults) acc) =
      match alookup sf md with
      | some v => some v
      | none => alookup sf defaults := by
  induction fms with
  | nil =>
    intro _ hmem
    cases hmem
  | cons p rest ih =>
    intro hnd hmem acc hacc
    obtain ⟨sf0, tf0⟩ := p
    rw [List.map_cons, List.nodup_cons] at hnd
    rcases List.mem_cons.mp hmem with heq | htail
    · injection heq with e1 e2
      subst e1
      subst e2
      rw [List.foldl_cons, alookup_fmFold_not_target md defaults rest _ _ hnd.1]
      cases h1 : alookup sf md with
      | some v => simp [fmStep, h1, alookup_ainsert_self]
      | none =>
        cases h2 : alookup sf defaults with
        | some d => simp [fmStep, h1, h2, alookup_ainsert_self]
        | none => simp [fmStep, h1, h2, hacc]
    · have htf : tf ∈ rest.map Prod.snd := List.mem_map.mpr ⟨(sf, tf), htail, rfl⟩
      have hne : tf ≠ tf0 := fun h => hnd.1 (h ▸ htf)
      rw [List.foldl_cons]
      apply ih hnd.2 htail
      cases h1 : alookup sf0 md with
      | some v => simp [fmStep, h1, alookup_ainsert_ne hne, hacc]
      | none =>
        cases h2 : alookup sf0 defaults with
        | some d => simp [fmStep, h1, h2, alookup_ainsert_ne hne, hacc]
        | none => simp [fmStep, h1, h2, hacc]

theorem getState_saveCheckpoint_of_ne_notStarted (t : Store) (cp : Checkpoint)
    (h : getState t cp.migrationID ≠ MigState.notStarted) :
    getState (saveCheckpoint t cp) cp.migrationID = getState t cp.migrationID := by
  have hcond : getState
      ({ migrations := t.migrations, checkpoints := ainsert cp.migrationID cp t.checkpoints } : Store)
      cp.migrationID = getState t cp.migrationID := rfl
  simp only [saveCheckpoint]
  rw [hcond, if_neg h]
  exact hcond

/-! ## Claims -/

/-- Claim C2, counterexample: the state store accepts the call sequence
`SetState(m, completed); SetState(m, in_progress)`, after which the state of
`m` reads `in_progress` — a terminal state was mutated back, contrary to the
claim that `completed` never changes again. -/
theorem C2_counterexample :
    getState (applyOps emptyStore
        [StoreOp.set "m" MigState.completed, StoreOp.set "m" MigState.inProgress]) "m"
      = MigState.inProgress ∧
    MigState.inProgress ≠ MigState.completed := by
  exact ⟨rfl, by decide⟩

/-- Claim C2 (amended): the state store places no restriction on lifecycle
transitions. `SetState` is an unconditional last-writer-wins upsert — after
`SetState(id, s)` the stored state is `s` whatever it was before, so a call
sequence can move `completed` back to `in_progress`. The only implicit
transition, `SaveCheckpoint`'s promotion, fires exactly on `not_started` and
leaves every other state (in particular `completed` and `rolled_back`)
unchanged; `DeleteCheckpoint` never touches lifecycle state. -/
theorem C2_set_state_unguarded :
    (∀ (t : Store) (id : String) (s : MigState), getState (setState t id s) id = s) ∧
    (∀ (t : Store) (cp : Checkpoint),
      getState t cp.migrationID ≠ MigState.notStarted →
      getState (saveCheckpoint t cp) cp.migrationID = getState t cp.migrationID) ∧
    (∀ (t : Store) (id id' : String),
      getState (deleteCheckpoint t id') id = getState t id) := by
  refine ⟨?_, ?_, ?_⟩
  · intro t id s
    simp [getState, setState, alookup_ainsert_self]
  · intro t cp h
    exact getState_saveCheckpoint_of_ne_notStarted t cp h
  · intro t id id'
    rfl

/-- Witness for C2: applied on a store where `m` is already `completed`. -/
theorem C2_set_state_unguarded_witness :
    getState (saveCheckpoint (setState emptyStore "m" MigState.completed)
        { migrationID := "m" }) "m"
      = getState (setState emptyStore "m" MigState.completed) "m" :=
  C2_set_state_unguarded.2.1 (setState emptyStore "m" MigState.completed)
    { migrationID := "m" } (by decide)

/-- Claim C7: on a migration whose state reads `not_started`, a successful
`SaveCheckpoint` both upserts the checkpoint (a subsequent `GetCheckpoint`
returns it) and promotes the lifecycle state, so that a subsequent
`GetState` returns `in_progress`. -/
theorem C7_save_checkpoint_promotes (t : Store) (cp : Checkpoint)
    (h : getState t cp.migrationID = MigState.notStarted) :
    getState (saveCheckpoint t cp) cp.migrationID = MigState.inProgress ∧
    getCheckpoint (saveCheckpoint t cp) cp.migrationID = some cp := by
  have hcond : getState
      ({ migrations := t.migrations, checkpoints := ainsert cp.migrationID cp t.checkpoints } : Store)
      cp.migrationID = getState t cp.migrationID := rfl
  constructor
  · simp only [saveCheckpoint]
    rw [hcond, if_pos h]
    simp [getState, setState, alookup_ainsert_self]
  · simp only [saveCheckpoint]
    rw [hcond, if_pos h]
    simp [getCheckpoint, setState, alookup_ainsert_self]

/-- Witness for C7: a fresh id on the empty store. -/
theorem C7_save_checkpoint_promotes_witness :
    getState (saveCheckpoint emptyStore { migrationID := "mig-1" }) "mig-1"
      = MigState.inProgress ∧
    getCheckpoint (saveCheckpoint emptyStore { migrationID := "mig-1" }) "mig-1"
      = some { migrationID := "mig-1" } :=
  C7_save_checkpoint_promotes emptyStore { migrationID := "mig-1" } (by decide)

/-- Claim C3, counterexample: a well-formed JSON-RPC 2.0 POST naming the
unregistered method `nope` is answered with code -32603 and message
`tool nope not found` — not code -32601 with message `method not found` as
the claim states. -/
theorem C3_counterexample :
    (handleRequest [] unknownMethodRequest).body
      = RespBody.rpcError (Value.int 1) (-32603) "tool nope not found" ∧
    (-32603 : Int) ≠ methodNotFoundCode ∧
    "tool nope not found" ≠ "method not found" := by
  refine ⟨rfl, by decide, by decide⟩

/-- Claim C3 (amended): for every well-formed JSON-RPC 2.0 POST request
whose method names a tool that is not registered, the control endpoint
replies with an error whose code is -32603 (`internal error` — the handler
wraps every `Execute` failure, including the registry's miss) and whose
message is `tool <method> not found`, with HTTP status 400. -/
theorem C3_unknown_method_internal_error (reg : Registry) (r : HttpRequest)
    (rq : RpcRequest) (hm : r.method = "POST") (hb : r.body = some rq)
    (hv : rq.jsonrpc = "2.0") (hu : alookup rq.method reg = none) :
    handleRequest reg r =
      { status := 400,
        body := RespBody.rpcError rq.id internalErrorCode
          ("tool " ++ rq.method ++ " not found") } := by
  simp [handleRequest, hm, hb, hv, registryExecute, registryGet, hu]

/-- Witness for C3: the `nope` request against the empty registry. -/
theorem C3_unknown_method_internal_error_witness :
    handleRequest [] unknownMethodRequest =
      { status := 400,
        body := RespBody.rpcError (Value.int 1) internalErrorCode "tool nope not found" } :=
  C3_unknown_method_internal_error [] unknownMethodRequest
    { jsonrpc := "2.0", id := Value.int 1, method := "nope" } rfl rfl rfl rfl

/-- Claim C8: the redaction function maps every string of length at most 4
(the empty string included) to `****`, and a longer string to `****`
followed by exactly its last 4 characters (the dropped-prefix suffix, of
length 4, that completes the string); and the audit middleware logs the
request-context credential only through this function. -/
theorem C8_mask_and_audit :
    (∀ s : String, s.length ≤ 4 → maskString s 4 = "****") ∧
    (∀ s : String, 4 < s.length →
      maskString s 4 = "****" ++ (s.data.drop (s.length - 4)).asString ∧
      (s.data.drop (s.length - 4)).length = 4 ∧
      s.data.take (s.length - 4) ++ s.data.drop (s.length - 4) = s.data) ∧
    (∀ (resp : HttpResponse) (r : HttpRequest) (st : ServerState),
      ((auditMiddleware (fun _ s => (s, resp))) r st).1.auditLog =
        st.auditLog ++
          [AuditEvent.request r.method r.path r.remoteAddr (maskString r.ctxApiKey 4),
           AuditEvent.response r.method r.path resp.status]) := by
  refine ⟨?_, ?_, ?_⟩
  · intro s h
    simp [maskString, h]
  · intro s h
    have hlen : s.length = s.data.length := rfl
    refine ⟨?_, ?_, ?_⟩
    · rw [maskString, if_neg (by omega)]
    · rw [List.length_drop]
      omega
    · exact List.take_append_drop _ _
  · intro resp r st
    simp [auditMiddleware]

/-- Witness for C8: the empty string, a short string, and the credential of
the repository's own audit test. -/
theorem C8_mask_and_audit_witness :
    maskString "" 4 = "****" ∧
    maskString "abc" 4 = "****" ∧
    maskString "secret-key-1234" 4
      = "****" ++ ("secret-key-1234".data.drop ("secret-key-1234".length - 4)).asString :=
  ⟨C8_mask_and_audit.1 "" (by decide), C8_mask_and_audit.1 "abc" (by decide),
   (C8_mask_and_audit.2.1 "secret-key-1234" (by decide)).1⟩

/-- Claim C9, counterexample: `SaveCheckpoint` accepts a checkpoint whose
`total_records` is -1 unchecked, and `migration_status` then reports
percentage (1 / -1) x 100 = -100 — not 0 as the claim's `0 otherwise`
branch demands for a non-positive total (the code guards only
`total == 0`). -/
theorem C9_counterexample :
    reportedPercentage (saveCheckpoint emptyStore negativeTotalCheckpoint) "m1"
      = some (-100) ∧
    calculatePercentage 1 (-1) = -100 ∧
    ¬(0 < (-1 : Int)) ∧ (-100 : Rat) ≠ 0 := by
  refine ⟨?_, ?_, by decide, by norm_num⟩
  · simp [reportedPercentage, migrationStatusExecute, saveCheckpoint, negativeTotalCheckpoint,
      getCheckpoint, getState, setState, emptyStore, alookup, ainsert, calculatePercentage]
  · simp [calculatePercentage]

/-- Claim C9 (amended): calling `migration_status` with a non-empty
`migration_id` unknown to the state store succeeds and returns that id,
status `not_started`, `progress.total_records = 0`,
`progress.migrated_records = 0` and `progress.percentage = 0.0`; in general
the reported percentage equals (migrated / total) x 100 whenever
`total ≠ 0`, and 0 when `total = 0` (the sign of the stored total is not
checked). -/
theorem C9_status_unknown_migration (id : String) (hid : id ≠ "") :
    migrationStatusExecute emptyStore [("migration_id", Value.str id)] =
      Except.ok (Value.obj
        [("migration_id", Value.str id),
         ("status", Value.str "not_started"),
         ("batches_processed", Value.int 0),
         ("started_at", Value.null),
         ("ended_at", Value.null),
         ("progress", Value.obj
           [("total_records", Value.int 0),
            ("migrated_records", Value.int 0),
            ("percentage", Value.rat 0)])]) ∧
    (∀ part total : Int, total ≠ 0 →
      calculatePercentage part total = (part : Rat) / (total : Rat) * 100) ∧
    (∀ part : Int, calculatePercentage part 0 = 0) := by
  refine ⟨?_, ?_, ?_⟩
  · simp [migrationStatusExecute, alookup, hid, getCheckpoint, getState, emptyStore]
  · intro part total h
    simp [calculatePercentage, h]
  · intro part
    simp [calculatePercentage]

/-- Witness for C9: the spec's own scenario id `mig-123`, and concrete
percentages. -/
theorem C9_status_unknown_migration_witness :
    migrationStatusExecute emptyStore [("migration_id", Value.str "mig-123")] =
      Except.ok (Value.obj
        [("migration_id", Value.str "mig-123"),
         ("status", Value.str "not_started"),
         ("batches_processed", Value.int 0),
         ("started_at", Value.null),
         ("ended_at", Value.null),
         ("progress", Value.obj
           [("total_records", Value.int 0),
            ("migrated_records", Value.int 0),
            ("percentage", Value.rat 0)])]) ∧
    calculatePercentage 50 200 = (50 : Rat) / (200 : Rat) * 100 ∧
    calculatePercentage 7 0 = 0 :=
  ⟨(C9_status_unknown_migration "mig-123" (by decide)).1,
   (C9_status_unknown_migration "mig-123" (by decide)).2.1 50 200 (by decide),
   (C9_status_unknown_migration "mig-123" (by decide)).2.2 7⟩

/-- Claim C1: `Server.Start` wraps the mux with audit first, then the rate
limiter, then authentication, so authentication — not audit — ends up
outermost. Evaluated at a request carrying a wrong credential through the
fully configured chain: the request is rejected with code -32001 and the
audit log stays empty, so no audit response entry records the rejection,
contrary to the claimed Audit-outermost ordering guarantee (and to the
source's own comments, which call audit `outermost - logs everything`). -/
theorem C1_rejection_leaves_no_audit_entry :
    (serverChain "right-key" 5 [] wrongKeyRequest {}).1.auditLog = [] ∧
    (serverChain "right-key" 5 [] wrongKeyRequest {}).2 =
      { status := 403, body := RespBody.rpcError Value.null (-32001) "invalid api key" } := by
  exact ⟨rfl, rfl⟩

/-- Claim C4: the rate-limit middleware has no `/healthz` bypass, so a
credential-less `GET /healthz` through the fully configured chain (burst 5,
fresh bucket table) charges the shared `anonymous` bucket — its token count
drops to 4 — and, the mux having no `/healthz` route, the reply is the
-32600 `method not allowed` error with HTTP 400 rather than a success. Both
halves of the claim (no quota charge; the request succeeds) fail. -/
theorem C4_healthz_charges_anonymous_bucket :
    (serverChain "right-key" 5 [] healthzRequest {}).1.buckets = [("anonymous", 4)] ∧
    (serverChain "right-key" 5 [] healthzRequest {}).1.buckets ≠ [] ∧
    (serverChain "right-key" 5 [] healthzRequest {}).2 =
      { status := 400,
        body := RespBody.rpcError Value.null invalidRequestCode "method not allowed" } := by
  refine ⟨rfl, ?_, rfl⟩
  rw [show (serverChain "right-key" 5 [] healthzRequest {}).1.buckets
      = [("anonymous", 4)] from rfl]
  simp

/-- Claim C5: the batch loop contains no retry. Evaluated with
`max_retries = 3` and a source whose first `GetBatch` fails transiently
while an immediate retry would succeed: the run is marked
`failed: failed to get batch 0: timeout` after exactly one `GetBatch` call,
and the terminal `failed` state is persisted — no retry, no backoff. -/
theorem C5_transient_error_fails_without_retry :
    (runMigration "m1" { maxRetries := 3 } transientFailureEnv emptyStore).stats.status
      = "failed: failed to get batch 0: timeout" ∧
    (runMigration "m1" { maxRetries := 3 } transientFailureEnv emptyStore).getBatchCalls = 1 ∧
    getState (runMigration "m1" { maxRetries := 3 } transientFailureEnv emptyStore).store "m1"
      = MigState.failed := by
  refine ⟨rfl, rfl, rfl⟩

/-- Claim C6: observing the pause flag makes the worker return, not wait.
Evaluated on a run with two batches available where the flag is set at
iteration 0 and clear from iteration 1 on (pause, then immediate resume):
the worker exits with zero `GetBatch` calls, zero migrated records and
`isRunning` cleared by the deferred cleanup; and `Resume` on the paused
handle merely flips the flags to `in_progress` — it creates no worker, so
no further batch is ever processed. -/
theorem C6_pause_terminates_worker :
    (runMigration "m1" {} pauseResumeEnv emptyStore).getBatchCalls = 0 ∧
    (runMigration "m1" {} pauseResumeEnv emptyStore).stats.migratedRecords = 0 ∧
    (runMigration "m1" {} pauseResumeEnv emptyStore).isRunningAfter = false ∧
    pauseResumeEnv.pausedAt 1 = false ∧
    pauseResumeEnv.batchScript.length = 2 ∧
    resumeOp { migrationID := "m1", isRunning := false, isPaused := true,
               status := "paused" } "m1"
      = Except.ok { migrationID := "m1", isRunning := false, isPaused := false,
                    status := "in_progress" } := by
  refine ⟨rfl, rfl, rfl, rfl, rfl, rfl⟩

/-- Claim C10, counterexample: with the mapping `a ↦ b`, a conversion
declared on `b`, and a source record carrying both `a` and `b`, the output
metadata holds `b` with the converter's result 99 — so the source key `b`,
which has no field_mappings entry, is not absent from the output, and the
value stored under the target `b` is neither the source value of `a` (1)
nor the source value of `b` (2), refuting the claim as stated. -/
theorem C10_counterexample :
    mapRecord
        { id := "r1", vector := [1],
          metadata := [("a", Value.int 1), ("b", Value.int 2)] }
        { fieldMappings := [("a", "b")],
          typeConversions :=
            [("b", { converter := some (fun _ => Except.ok (Value.int 99)) })] }
      = Except.ok { id := "r1", vector := [1], metadata := [("b", Value.int 99)] } ∧
    alookup "b" [("a", "b")] = none ∧
    Value.int 99 ≠ Value.int 1 ∧
    Value.int 99 ≠ Value.int 2 := by
  refine ⟨rfl, rfl, ?_, ?_⟩
  · intro h
    injection h with h2
    omega
  · intro h
    injection h with h2
    omega

/-- Claim C10 (amended): for every record and every schema mapping with no
type conversions and pairwise-distinct targets, `MapRecord` succeeds with
id and vector copied unchanged and a metadata map rebuilt from scratch:
the value under each entry's target is the source value of the entry's
source key when present, else the declared default (absent when neither
exists), and any key that is not the target of some field_mappings entry —
in particular every unmapped source metadata key that no entry targets —
is absent from the output. -/
theorem C10_map_record_rebuilds_metadata (r : Record) (m : SchemaMapping)
    (hconv : m.typeConversions = [])
    (hnd : (m.fieldMappings.map Prod.snd).Nodup) :
    mapRecord r m = Except.ok
      { id := r.id, vector := r.vector,
        metadata := applyFieldMappings r.metadata m.defaultValues m.fieldMappings } ∧
    (∀ sf tf, (sf, tf) ∈ m.fieldMappings →
      alookup tf (applyFieldMappings r.metadata m.defaultValues m.fieldMappings) =
        match alookup sf r.metadata with
        | some v => some v
        | none => alookup sf m.defaultValues) ∧
    (∀ k, k ∉ m.fieldMappings.map Prod.snd →
      alookup k (applyFieldMappings r.metadata m.defaultValues m.fieldMappings) = none) := by
  refine ⟨?_, ?_, ?_⟩
  · rw [mapRecord, hconv]
    rfl
  · intro sf tf hmem
    exact alookup_fmFold_target r.metadata m.defaultValues m.fieldMappings sf tf
      hnd hmem [] rfl
  · intro k hk
    exact alookup_fmFold_not_target r.metadata m.defaultValues m.fieldMappings [] k hk

/-- Witness for C10: the single rename `a ↦ b` with no conversions. -/
theorem C10_map_record_rebuilds_metadata_witness :
    mapRecord { id := "r1", vector := [1], metadata := [("a", Value.int 1)] }
        { fieldMappings := [("a", "b")] }
      = Except.ok
          { id := "r1", vector := [1],
            metadata := applyFieldMappings [("a", Value.int 1)] [] [("a", "b")] } ∧
    (∀ sf tf, (sf, tf) ∈ [("a", "b")] →
      alookup tf (applyFieldMappings [("a", Value.int 1)] [] [("a", "b")]) =
        match alookup sf [("a", Value.int 1)] with
        | some v => some v
        | none => alookup sf ([] : List (String × Value))) ∧
    (∀ k, k ∉ [("a", "b")].map Prod.snd →
      alookup k (applyFieldMappings [("a", Value.int 1)] [] [("a", "b")]) = none) :=
  C10_map_record_rebuilds_metadata
    { id := "r1", vector := [1], metadata := [("a", Value.int 1)] }
    { fieldMappings := [("a", "b")] } rfl (by decide)

end VecMig
